import Mathlib

/-!
Verification of `yt_summary.py`: a linear pipeline that downloads a
YouTube video's audio (`download_audio`), transcribes it
(`transcribe_audio_faster`), writes the transcript to a file, counts its
tokens (`num_tokens_from_string`) and asks a chat-completion endpoint for
a Markdown summary (`get_brief`).

External services (yt-dlp, the Whisper model, tiktoken's encoder, the
OpenAI-compatible completion endpoint) are modelled as oracle fields of an
`Env` record; the filesystem is a record of directories and files.  Path
manipulation mirrors the `os.path` functions the script uses
(`os.path.join`, `os.path.splitext`, `str.rsplit('.', 1)`,
`os.path.abspath`, `os.makedirs`).
-/

/-- A segment produced by the Whisper model; the script only reads `.text`. -/
structure Segment where
  text : String
deriving DecidableEq

/-- A tiktoken encoding: the script only uses the length of `encode`'s
result, so tokens are kept as strings rather than numeric ids. -/
structure Encoding where
  encode : String → List String

/-- A chat message as built in `get_brief`. -/
structure ChatMessage where
  role : String
  content : String
deriving DecidableEq

/-- One completion choice; the script reads `choices[0].message.content`. -/
structure ChatChoice where
  message : ChatMessage
deriving DecidableEq

/-- The completion object returned by the endpoint. -/
structure ChatCompletion where
  choices : List ChatChoice
deriving DecidableEq

/-- The request `client.chat.completions.create` is called with. -/
structure ChatRequest where
  model : String
  messages : List ChatMessage
  temperature : ℚ
  max_tokens : Nat
deriving DecidableEq

/-- The part of yt-dlp's info dictionary that `prepare_filename` consumes
through the output template `'%(title)s.%(ext)s'`. -/
structure InfoDict where
  title : String
  ext : String
deriving DecidableEq

/-- The two `except` clauses of `download_audio`:
`yt_dlp.utils.DownloadError` and any other exception. -/
inductive FetchErr where
  | downloadError (msg : String)
  | otherError (msg : String)
deriving DecidableEq

/-- Oracles for the external services the script calls. -/
structure Env where
  extract_info : String → Except FetchErr InfoDict
  segments : String → List Segment
  get_encoding : String → Encoding
  complete : ChatRequest → ChatCompletion

/-- The filesystem: a set of existing directories and a map from file
paths to file contents (strings, written UTF-8 encoded). -/
structure FS where
  dirs : List String
  files : List (String × String)
deriving DecidableEq

/-- The `ydl_opts` dictionary built in `download_audio`. -/
structure YdlOpts where
  format : String
  extractaudio : Bool
  audioformat : String
  outtmpl : String
  preferredcodec : String
  preferredquality : String
  nooverwrites : Bool
  quiet : Bool
  noplaylist : Bool
deriving DecidableEq

/-- Splits `l` at the LAST occurrence of `c`: returns
`some (before, after)` with `l = before ++ [c] ++ after` and `c ∉ after`,
or `none` when `c` does not occur.  Mirrors Python's `str.rsplit(c, 1)`
and the index arithmetic of `os.path.split` / `os.path.splitext`. -/
def splitAtLastChar (c : Char) (l : List Char) : Option (List Char × List Char) :=
  let suf := (l.reverse.takeWhile (fun x => x ≠ c)).reverse
  if suf.length = l.length then none
  else some (l.take (l.length - suf.length - 1), suf)

/-- `file_name.rsplit('.', 1)[0]` (line 116): everything before the last
dot, or the whole string when there is no dot. -/
def rsplitDotFirst (s : String) : String :=
  match splitAtLastChar '.' s.data with
  | none => s
  | some p => String.mk p.1

/-- `os.path.splitext(p)[0]` (posix semantics, line 163): strips the
extension beginning at the last dot of the basename, where leading dots
of the basename do not begin an extension. -/
def splitextRoot (p : String) : String :=
  let pre_base : List Char × List Char :=
    match splitAtLastChar '/' p.data with
    | some q => (q.1 ++ ['/'], q.2)
    | none => ([], p.data)
  let dots := pre_base.2.takeWhile (fun x => x = '.')
  let rest := pre_base.2.dropWhile (fun x => x = '.')
  match splitAtLastChar '.' rest with
  | some q => String.mk (pre_base.1 ++ dots ++ q.1)
  | none => p

/-- `os.path.join(a, b)` (posix semantics, two arguments): an absolute
second component discards the first. -/
def pythonJoin (a b : String) : String :=
  if b.data.head? = some '/' then b
  else if a = "" then b
  else if a.data.getLast? = some '/' then a ++ b
  else a ++ "/" ++ b

/-- `os.path.abspath(p)` (line 117): prefixes the current working
directory when `p` is relative.  (The `normpath` cleanup of `.` and `..`
components is not modelled; no claim depends on it.) -/
def abspath (cwd p : String) : String :=
  if p.data.head? = some '/' then p else pythonJoin cwd p

/-- The chain of directories `os.makedirs` creates for a path, innermost
last, following its recursion `head, tail = path.split(name)`: the parent
chain of `a/b/c` is `a`, `a/b`, `a/b/c`; an empty parent (the root or a
bare name) ends the recursion.  `fuel` bounds the recursion depth; the
parent of a path is strictly shorter, so `l.length` fuel suffices. -/
def mkdirChainAux (fuel : Nat) (l : List Char) : List (List Char) :=
  match fuel with
  | 0 => [l]
  | fuel' + 1 =>
    match splitAtLastChar '/' l with
    | none => [l]
    | some p => if p.1.isEmpty then [l] else mkdirChainAux fuel' p.1 ++ [l]

/-- All directories `os.makedirs(dir)` creates, parents first. -/
def mkdirChain (dir : String) : List (List Char) :=
  mkdirChainAux dir.data.length dir.data

/-- Inserts a directory into the directory list if absent. -/
def insertDir (ds : List String) (d : List Char) : List String :=
  if String.mk d ∈ ds then ds else ds ++ [String.mk d]

/-- `os.makedirs(output_dir, exist_ok=True)` (line 98): creates the
directory and its parents; never fails, and existing directories are left
as they are.  Files are untouched. -/
def makedirs (fs : FS) (dir : String) : FS :=
  { fs with dirs := (mkdirChain dir).foldl insertDir fs.dirs }

/-- `open(path, 'w').write(content)`: sets the file's contents, replacing
any previous entry at the same path. -/
def set_file (files : List (String × String)) (path content : String) :
    List (String × String) :=
  match files with
  | [] => [(path, content)]
  | e :: rest =>
    if e.1 = path then (path, content) :: rest
    else e :: set_file rest path content

/-- Writing a file in mode `'w'` (lines 167-168). -/
def write_file (fs : FS) (path content : String) : FS :=
  { fs with files := set_file fs.files path content }

/-- The `ydl_opts` dictionary (lines 99-112). -/
def ydl_opts (output_dir : String) : YdlOpts :=
  { format := "bestaudio/best"
    extractaudio := true
    audioformat := "mp3"
    outtmpl := pythonJoin output_dir "%(title)s.%(ext)s"
    preferredcodec := "mp3"
    preferredquality := "192"
    nooverwrites := true
    quiet := true
    noplaylist := true }

/-- `ydl.prepare_filename(info_dict)` (line 115): renders the output
template `(ydl_opts output_dir).outtmpl`, i.e.
`os.path.join(output_dir, '%(title)s.%(ext)s')`, substituting the video's
title and original extension.  (yt-dlp is an external library; this
models its template rendering for the fixed template the script uses.) -/
def prepare_filename (output_dir : String) (info_dict : InfoDict) : String :=
  pythonJoin output_dir (info_dict.title ++ "." ++ info_dict.ext)

/-- Line 116-117: the returned audio path,
`os.path.abspath(file_name.rsplit('.', 1)[0] + '.mp3')`. -/
def mp3_path (cwd file_name : String) : String :=
  abspath cwd (rsplitDotFirst file_name ++ ".mp3")

/-- The user-facing message each `except` clause of `download_audio`
prints before `sys.exit(1)` (lines 118-123, with rich markup). -/
def fetch_error_message : FetchErr → String
  | FetchErr.downloadError e => "[red]Download failed: " ++ e ++ "[/red]"
  | FetchErr.otherError e => "[red]An unexpected error occurred: " ++ e ++ "[/red]"

/-- `download_audio(video_url, output_dir)` (lines 83-123): ensures the
output directory exists, asks yt-dlp to extract the video's info and
download its audio, and returns the absolute mp3 path together with the
originally prepared filename.  Either `except` clause prints a message
and exits with code 1, modelled as `Except.error (1, message)`. -/
def download_audio (env : Env) (cwd video_url output_dir : String) (fs : FS) :
    FS × Except (Nat × String) (String × String) :=
  let fs1 := makedirs fs output_dir
  match env.extract_info video_url with
  | Except.ok info_dict =>
    let file_name := prepare_filename output_dir info_dict
    (fs1, Except.ok (mp3_path cwd file_name, file_name))
  | Except.error e => (fs1, Except.error (1, fetch_error_message e))

/-- `transcribe_audio_faster(audio)` (lines 126-138):
`''.join([segment.text for segment in segments])`. -/
def transcribe_audio_faster (env : Env) (audio : String) : String :=
  String.join ((env.segments audio).map (fun segment => segment.text))

/-- `num_tokens_from_string(string, encoding_name)` (lines 52-56):
`len(tiktoken.get_encoding(encoding_name).encode(string))`. -/
def num_tokens_from_string (env : Env) (string : String) (encoding_name : String) : Nat :=
  ((env.get_encoding encoding_name).encode string).length

/-- The system prompt (lines 41-50), verbatim. -/
def system_prompt : String :=
  "You are an expert consultant who has years of experience in journalism, management summaries creation, and analyses of different topics. You pride yourself on incredible accuracy and attention to detail. You always stick to the facts in the sources provided, and never make up new facts.\n\nNow look at the transcription of youtube video below, and write the following in concise and informative way using Markdown formating.\n\nThe title.\nSummary.\nMain covered topics and facts with short description and source or citation if suitable.\nConclusion.\n\nTranscription: "

/-- The request `get_brief` builds (lines 68-78): two messages — the
fixed system prompt and the transcript verbatim — temperature 0.1,
max_tokens 2048, model \"gpt-3.5-turbo\". -/
def briefRequest (transcript : String) : ChatRequest :=
  { model := "gpt-3.5-turbo"
    messages := [ { role := "system", content := system_prompt }
                , { role := "user", content := transcript } ]
    temperature := 0.1
    max_tokens := 2048 }

/-- `get_brief(transcript)` (lines 58-81): sends the request and returns
`completion.choices[0].message.content`; `none` models the `IndexError`
raised when the completion has no choices. -/
def get_brief (env : Env) (transcript : String) : Option String :=
  ((env.complete (briefRequest transcript)).choices.head?).map
    (fun choice => choice.message.content)

/-- The CLI arguments (lines 146-151): `--video_url` is required,
`--mp3_dir` and `--transcript_dir` default to the current directory. -/
structure Args where
  video_url : String
  mp3_dir : String := "."
  transcript_dir : String := "."
deriving DecidableEq

/-- Lines 163-164: `os.path.join(transcript_dir,
os.path.splitext(filename)[0] + "_transcript.txt")`. -/
def transcript_output_path (transcript_dir filename : String) : String :=
  pythonJoin transcript_dir (splitextRoot filename ++ "_transcript.txt")

/-- The observable stage events of one run, in execution order. -/
inductive Event where
  | fetch (url : String)
  | transcribe (audio : String)
  | writeTranscript (path content : String)
  | countTokens (text : String)
  | summarize (text : String)
deriving DecidableEq

/-- How a run ends: `sys.exit(code)` with a printed message, an uncaught
exception, or normal completion with the printed token count and the
rendered summary. -/
inductive Outcome where
  | exited (code : Nat) (message : String)
  | raised (message : String)
  | done (num_tokens : Nat) (summary : String)
deriving DecidableEq

/-- `main()` (lines 141-177): download, transcribe, write the transcript
file, count tokens, summarize.  Returns the final filesystem, the stage
events in execution order, and the outcome. -/
def pipeline_main (env : Env) (cwd : String) (args : Args) (fs : FS) :
    FS × List Event × Outcome :=
  let r := download_audio env cwd args.video_url args.mp3_dir fs
  match r.2 with
  | Except.error ec => (r.1, [Event.fetch args.video_url], Outcome.exited ec.1 ec.2)
  | Except.ok pf =>
    let transcription := transcribe_audio_faster env pf.1
    let output_path := transcript_output_path args.transcript_dir pf.2
    let fs2 := write_file r.1 output_path transcription
    let num_tokens := num_tokens_from_string env transcription "cl100k_base"
    (fs2,
     [Event.fetch args.video_url, Event.transcribe pf.1,
      Event.writeTranscript output_path transcription,
      Event.countTokens transcription, Event.summarize transcription],
     match get_brief env transcription with
     | some brief_txt => Outcome.done num_tokens brief_txt
     | none => Outcome.raised "IndexError: list index out of range")

/-- Modelled from the spec: the tokenization scheme behind
`tiktoken.get_encoding("cl100k_base")` is an external vocabulary not part
of this repository; the spec describes it only as \"the
algorithm/vocabulary used to split text into model-countable units\".  It
is modelled as a greedy longest-match subword tokenizer over a
vocabulary, with single characters as fallback tokens — the longest
vocabulary entry that is a prefix of the remaining input. -/
def longestVocabMatch (vocab : List String) (l : List Char) : Option (List Char) :=
  match vocab with
  | [] => none
  | v :: vs =>
    let rest := longestVocabMatch vs l
    if 0 < v.data.length ∧ v.data.isPrefixOf l then
      match rest with
      | none => some v.data
      | some b => if b.length < v.data.length then some v.data else b
    else rest

/-- Greedy subword encoding with `fuel` bounding the number of emitted
tokens; every step consumes at least one character, so `l.length` fuel
suffices. -/
def greedyEncodeAux (vocab : List String) (fuel : Nat) (l : List Char) :
    List (List Char) :=
  match fuel, l with
  | 0, _ => []
  | _ + 1, [] => []
  | fuel' + 1, c :: cs =>
    match longestVocabMatch vocab (c :: cs) with
    | none => [c] :: greedyEncodeAux vocab fuel' cs
    | some m => m :: greedyEncodeAux vocab fuel' ((c :: cs).drop m.length)

/-- A tokenization scheme built from a vocabulary. -/
def vocabEncoding (vocab : List String) : Encoding :=
  { encode := fun s => (greedyEncodeAux vocab s.data.length s.data).map String.mk }

/-- A fixed subword scheme whose vocabulary holds one long token,
standing in for the multi-character tokens of `cl100k_base`. -/
def toyEncoding : Encoding :=
  vocabEncoding ["chrysanthemum"]

/-- A character-level scheme: the empty vocabulary makes every token a
single character. -/
def charEncoding : Encoding :=
  vocabEncoding []

/-- A concrete environment where every oracle succeeds. -/
def envA : Env :=
  { extract_info := fun _ => Except.ok { title := "talk", ext := "webm" }
    segments := fun _ => [ { text := "hello" }, { text := " world" } ]
    get_encoding := fun _ => toyEncoding
    complete := fun _ =>
      { choices := [ { message := { role := "assistant", content := "summary" } } ] } }

/-- An environment whose fetch stage raises a download error. -/
def envFail : Env :=
  { envA with extract_info := fun _ => Except.error (FetchErr.downloadError "unreachable") }

/-- An environment whose transcription model yields no segments. -/
def envSilent : Env :=
  { envA with segments := fun _ => [] }

/-- An environment using the character-level tokenization scheme. -/
def envChar : Env :=
  { envA with get_encoding := fun _ => charEncoding }

/-- An empty filesystem. -/
def fs0 : FS :=
  { dirs := [], files := [] }

/-- A filesystem already holding a transcript file at the path the
pipeline writes to (for the overwrite claims). -/
def fsOld : FS :=
  { dirs := [], files := [("/audio/talk_transcript.txt", "OLD")] }

/-! ## Helper lemmas -/

theorem string_foldl_append (l : List String) :
    ∀ a : String, l.foldl (fun r s => r ++ s) a = a ++ l.foldr (fun r s => r ++ s) "" := by
  induction l with
  | nil => intro a; simp
  | cons b bs ih =>
    intro a
    simp only [List.foldl_cons, List.foldr_cons, ih (a ++ b), String.append_assoc]

theorem string_join_eq_foldr (l : List String) :
    String.join l = l.foldr (fun r s => r ++ s) "" := by
  rw [String.join, string_foldl_append]
  exact String.empty_append _

theorem lookup_set_file :
    ∀ (files : List (String × String)) (path content : String),
      (set_file files path content).lookup path = some content := by
  intro files
  induction files with
  | nil =>
    intro path content
    simp [set_file, List.lookup]
  | cons e rest ih =>
    intro path content
    obtain ⟨k, v⟩ := e
    rw [set_file]
    split
    · simp [List.lookup]
    · next hne =>
      have hb : (path == k) = false := by
        simp only [beq_eq_false_iff_ne, ne_eq]
        intro hh
        exact hne (by simpa using hh.symm)
      simp [List.lookup, hb, ih]

/-! ## C2: the summarizer's request and response handling -/

/-- C2: `get_brief` builds exactly two messages — the fixed system prompt
and the transcript verbatim — sends them with temperature 0.1 (= 1/10)
and max_tokens 2048, and returns the first choice's message content
unmodified. -/
theorem c2_summarizer_request (t : String) :
    (briefRequest t).messages =
      [ { role := "system", content := system_prompt }
      , { role := "user", content := t } ]
    ∧ (briefRequest t).messages.length = 2
    ∧ (briefRequest t).temperature = 1 / 10
    ∧ (briefRequest t).max_tokens = 2048
    ∧ (briefRequest t).model = "gpt-3.5-turbo"
    ∧ ∀ (env : Env) (c : ChatChoice) (cs : List ChatChoice),
        (env.complete (briefRequest t)).choices = c :: cs →
        get_brief env t = some c.message.content := by
  refine ⟨rfl, rfl, by norm_num [briefRequest], rfl, rfl, ?_⟩
  intro env c cs h
  rw [get_brief, h]
  rfl

/-- Witness for C2 at a concrete environment and transcript. -/
theorem c2_summarizer_request_witness : get_brief envA "hi" = some "summary" :=
  (c2_summarizer_request "hi").2.2.2.2.2 envA
    { message := { role := "assistant", content := "summary" } } [] rfl

/-! ## C3: fetch-stage errors abort the run -/

/-- C3: if the fetch stage fails with a download error or any other
exception, the run terminates with exit code 1 after reporting the
corresponding message, having emitted only the fetch event, and no file
is created. -/
theorem c3_fetch_error_aborts (env : Env) (cwd : String) (args : Args) (fs : FS)
    (e : FetchErr) (h : env.extract_info args.video_url = Except.error e) :
    pipeline_main env cwd args fs =
      (makedirs fs args.mp3_dir, [Event.fetch args.video_url],
        Outcome.exited 1 (fetch_error_message e))
    ∧ (pipeline_main env cwd args fs).1.files = fs.files := by
  have h1 : pipeline_main env cwd args fs =
      (makedirs fs args.mp3_dir, [Event.fetch args.video_url],
        Outcome.exited 1 (fetch_error_message e)) := by
    simp [pipeline_main, download_audio, h]
  exact ⟨h1, by rw [h1]; rfl⟩

/-- Witness for C3: a failing fetch on a concrete environment. -/
theorem c3_fetch_error_aborts_witness :
    pipeline_main envFail "/home" { video_url := "bad" } fs0 =
      (makedirs fs0 ".", [Event.fetch "bad"],
        Outcome.exited 1 (fetch_error_message (FetchErr.downloadError "unreachable")))
    ∧ (pipeline_main envFail "/home" { video_url := "bad" } fs0).1.files = fs0.files :=
  c3_fetch_error_aborts envFail "/home" { video_url := "bad" } fs0
    (FetchErr.downloadError "unreachable") rfl

/-! ## C5: the transcriber concatenates segments with no separator -/

/-- C5: the transcriber's result is the fold of plain string append over
the segment texts (no separator), and an empty segment sequence yields
the empty string. -/
theorem c5_transcriber_concatenation (env : Env) (audio : String) :
    transcribe_audio_faster env audio =
      (env.segments audio).foldr (fun segment acc => segment.text ++ acc) ""
    ∧ (env.segments audio = [] → transcribe_audio_faster env audio = "") := by
  constructor
  · rw [transcribe_audio_faster, string_join_eq_foldr, List.foldr_map]
  · intro h
    rw [transcribe_audio_faster, h]
    rfl

/-- Witness for C5: a model yielding no segments gives the empty
transcript. -/
theorem c5_transcriber_concatenation_witness :
    transcribe_audio_faster envSilent "audio.mp3" = "" :=
  (c5_transcriber_concatenation envSilent "audio.mp3").2 rfl

/-! ## C1: where the transcript file actually lands -/

/-- C1 (failing input): with audio directory `/audio` and transcript
directory `/texts`, the transcript of a video titled `talk` is written to
`/audio/talk_transcript.txt` — inside the audio directory — and no file
appears under the transcript directory, because line 163 derives the
output name from the prepared filename, which already contains the audio
directory, and `os.path.join` discards `transcript_dir` when that name is
absolute. -/
theorem c1_transcript_lands_in_audio_dir :
    (pipeline_main envA "/home"
        { video_url := "https://youtu.be/EXAMPLE", mp3_dir := "/audio", transcript_dir := "/texts" }
        fs0).1.files.lookup "/audio/talk_transcript.txt" = some "hello world"
    ∧ (pipeline_main envA "/home"
        { video_url := "https://youtu.be/EXAMPLE", mp3_dir := "/audio", transcript_dir := "/texts" }
        fs0).1.files.lookup "/texts/talk_transcript.txt" = none
    ∧ transcript_output_path "/texts" (prepare_filename "/audio" { title := "talk", ext := "webm" }) =
        "/audio/talk_transcript.txt" := by
  refine ⟨?_, ?_, ?_⟩ <;> rfl

/-! ## C8: token count vs character length -/

theorem greedy_nil_vocab_length :
    ∀ (fuel : Nat) (l : List Char), l.length ≤ fuel →
      (greedyEncodeAux [] fuel l).length = l.length := by
  intro fuel
  induction fuel with
  | zero =>
    intro l h
    have : l = [] := List.length_eq_zero.mp (Nat.le_zero.mp h)
    subst this
    rfl
  | succ n ih =>
    intro l h
    cases l with
    | nil => rfl
    | cons c cs =>
      have hmatch : longestVocabMatch [] (c :: cs) = none := rfl
      simp only [greedyEncodeAux, hmatch, List.length_cons]
      rw [ih cs (by simpa using Nat.lt_succ_iff.mp (Nat.lt_of_lt_of_le (Nat.lt_succ_self _) h))]

/-- C8 counterexample: for a fixed tokenization scheme in the family the
token counter is written against — a subword scheme whose vocabulary
contains a multi-character token, as `cl100k_base` does — a strictly
longer text can encode to strictly fewer tokens: the 13-character
`chrysanthemum` is one token while the 2-character `zq` is two. -/
theorem c8_monotonicity_counterexample :
    ("zq" : String).length < ("chrysanthemum" : String).length
    ∧ num_tokens_from_string envA "chrysanthemum" "cl100k_base" <
        num_tokens_from_string envA "zq" "cl100k_base" := by
  decide

/-- C8 (amended): for a character-level tokenization scheme — one whose
vocabulary adds no multi-character tokens, so every character encodes to
exactly one token — the token count is monotonically non-decreasing in
the character length of the text. -/
theorem c8_char_level_monotone (s t : String) (h : t.length ≤ s.length) :
    num_tokens_from_string envChar t "cl100k_base" ≤
      num_tokens_from_string envChar s "cl100k_base" := by
  have hs : num_tokens_from_string envChar s "cl100k_base" = s.length := by
    simp only [num_tokens_from_string, envChar, charEncoding, vocabEncoding, List.length_map]
    exact greedy_nil_vocab_length _ _ (Nat.le_refl _)
  have ht : num_tokens_from_string envChar t "cl100k_base" = t.length := by
    simp only [num_tokens_from_string, envChar, charEncoding, vocabEncoding, List.length_map]
    exact greedy_nil_vocab_length _ _ (Nat.le_refl _)
  rw [hs, ht]
  exact h

/-- Witness for the amended C8 at concrete texts. -/
theorem c8_char_level_monotone_witness :
    num_tokens_from_string envChar "ab" "cl100k_base" ≤
      num_tokens_from_string envChar "abc" "cl100k_base" :=
  c8_char_level_monotone "abc" "ab" (by decide)

/-! ## C7: makedirs creates missing directories and keeps existing ones -/

theorem mem_insertDir_foldl {x : String} :
    ∀ (l : List (List Char)) (ds : List String), x ∈ ds → x ∈ l.foldl insertDir ds := by
  intro l
  induction l with
  | nil => intro ds h; simpa using h
  | cons d rest ih =>
    intro ds h
    rw [List.foldl_cons]
    apply ih
    rw [insertDir]
    split
    · exact h
    · exact List.mem_append_left _ h

theorem mem_foldl_insertDir_of_mem {d : List Char} :
    ∀ (l : List (List Char)) (ds : List String), d ∈ l →
      String.mk d ∈ l.foldl insertDir ds := by
  intro l
  induction l with
  | nil => intro ds h; cases h
  | cons a rest ih =>
    intro ds h
    rcases List.mem_cons.mp h with h1 | h2
    · subst h1
      rw [List.foldl_cons]
      apply mem_insertDir_foldl
      rw [insertDir]
      split
      · assumption
      · exact List.mem_append_right _ (List.mem_singleton.mpr rfl)
    · rw [List.foldl_cons]
      exact ih _ h2

theorem foldl_insertDir_of_all_mem :
    ∀ (l : List (List Char)) (ds : List String),
      (∀ d ∈ l, String.mk d ∈ ds) → l.foldl insertDir ds = ds := by
  intro l
  induction l with
  | nil => intro ds _; rfl
  | cons a rest ih =>
    intro ds h
    have ha : insertDir ds a = ds := by
      rw [insertDir, if_pos (h a (List.mem_cons_self _ _))]
    rw [List.foldl_cons, ha]
    exact ih ds (fun d hd => h d (List.mem_cons_of_mem _ hd))

theorem self_mem_mkdirChainAux (fuel : Nat) (l : List Char) : l ∈ mkdirChainAux fuel l := by
  cases fuel with
  | zero => exact List.mem_singleton.mpr rfl
  | succ n =>
    rw [mkdirChainAux]
    cases h : splitAtLastChar '/' l with
    | none => exact List.mem_singleton.mpr rfl
    | some p =>
      simp only
      split
      · exact List.mem_singleton.mpr rfl
      · exact List.mem_append_right _ (List.mem_singleton.mpr rfl)

/-- C7: `os.makedirs(dir, exist_ok=True)` as called by the fetcher — the
directory is created together with the whole parent chain `mkdirChain`,
files are untouched, the function never fails (it is total), and when the
directory chain already exists the filesystem is returned unchanged. -/
theorem c7_makedirs_creates (fs : FS) (dir : String) :
    dir ∈ (makedirs fs dir).dirs
    ∧ (∀ d ∈ mkdirChain dir, String.mk d ∈ (makedirs fs dir).dirs)
    ∧ (∀ d ∈ fs.dirs, d ∈ (makedirs fs dir).dirs)
    ∧ (makedirs fs dir).files = fs.files
    ∧ ((∀ d ∈ mkdirChain dir, String.mk d ∈ fs.dirs) → makedirs fs dir = fs) := by
  refine ⟨?_, ?_, ?_, rfl, ?_⟩
  · have hmem : dir.data ∈ mkdirChain dir := self_mem_mkdirChainAux _ _
    have h := mem_foldl_insertDir_of_mem (mkdirChain dir) fs.dirs hmem
    have hd : String.mk dir.data = dir := by cases dir; rfl
    rw [hd] at h
    exact h
  · intro d hd
    exact mem_foldl_insertDir_of_mem (mkdirChain dir) fs.dirs hd
  · intro d hd
    exact mem_insertDir_foldl (mkdirChain dir) fs.dirs hd
  · intro h
    show { fs with dirs := (mkdirChain dir).foldl insertDir fs.dirs } = fs
    rw [foldl_insertDir_of_all_mem _ _ h]

/-- Witness for C7: creating a fresh nested directory, and re-creating an
existing one. -/
theorem c7_makedirs_creates_witness :
    "a/b" ∈ (makedirs fs0 "a/b").dirs
    ∧ makedirs { dirs := ["a"], files := [] } "a" = { dirs := ["a"], files := [] } :=
  ⟨(c7_makedirs_creates fs0 "a/b").1,
   (c7_makedirs_creates { dirs := ["a"], files := [] } "a").2.2.2.2 (by decide)⟩

/-! ## C4: the fetcher's return value -/

theorem abspath_append_suffix (cwd x suf : String) :
    ∃ a, abspath cwd (x ++ suf) = a ++ suf := by
  rw [abspath, pythonJoin]
  split
  · exact ⟨x, rfl⟩
  · split
    · exact ⟨x, rfl⟩
    · split
      · exact ⟨cwd ++ x, (String.append_assoc cwd x suf).symm⟩
      · exact ⟨cwd ++ "/" ++ x, (String.append_assoc (cwd ++ "/") x suf).symm⟩

theorem abspath_absolute (cwd p : String) (h : ∃ c, cwd = "/" ++ c) :
    ∃ r, abspath cwd p = "/" ++ r := by
  obtain ⟨c, hc⟩ := h
  rw [abspath, pythonJoin]
  split
  · next hp =>
    obtain ⟨pd⟩ := p
    cases pd with
    | nil => simp at hp
    | cons x xs =>
      have hx : x = '/' := by simpa using hp
      subst hx
      refine ⟨String.mk xs, ?_⟩
      apply String.ext
      simp [String.data_append]
  · split
    · next hemp =>
      rw [hemp] at hc
      have := congrArg String.data hc
      simp [String.data_append] at this
    · split
      · subst hc
        exact ⟨c ++ p, String.append_assoc "/" c p⟩
      · subst hc
        refine ⟨c ++ "/" ++ p, ?_⟩
        simp only [String.append_assoc]

/-- C4: on a successful fetch, `download_audio` returns the pair of the
absolute mp3 path — it starts with `/` (given an absolute working
directory) and ends in the configured `.mp3` extension — and the
originally prepared filename, before the extension was swapped for
`.mp3`. -/
theorem c4_download_audio_ok (env : Env) (cwd url dir : String) (fs : FS)
    (info : InfoDict) (hok : env.extract_info url = Except.ok info)
    (habs : ∃ c, cwd = "/" ++ c) :
    (download_audio env cwd url dir fs).2 =
      Except.ok (mp3_path cwd (prepare_filename dir info), prepare_filename dir info)
    ∧ (∃ a, mp3_path cwd (prepare_filename dir info) = a ++ ".mp3")
    ∧ (∃ r, mp3_path cwd (prepare_filename dir info) = "/" ++ r)
    ∧ (ydl_opts dir).audioformat = "mp3"
    ∧ (ydl_opts dir).preferredcodec = "mp3" := by
  refine ⟨?_, ?_, ?_, rfl, rfl⟩
  · simp [download_audio, hok]
  · exact abspath_append_suffix cwd (rsplitDotFirst (prepare_filename dir info)) ".mp3"
  · exact abspath_absolute cwd _ habs

/-- Witness for C4 at a concrete environment, directories and title. -/
theorem c4_download_audio_ok_witness :
    (download_audio envA "/home" "u" "/audio" fs0).2 =
      Except.ok (mp3_path "/home" (prepare_filename "/audio" { title := "talk", ext := "webm" }),
        prepare_filename "/audio" { title := "talk", ext := "webm" })
    ∧ (∃ a, mp3_path "/home" (prepare_filename "/audio" { title := "talk", ext := "webm" }) = a ++ ".mp3")
    ∧ (∃ r, mp3_path "/home" (prepare_filename "/audio" { title := "talk", ext := "webm" }) = "/" ++ r)
    ∧ (ydl_opts "/audio").audioformat = "mp3"
    ∧ (ydl_opts "/audio").preferredcodec = "mp3" :=
  c4_download_audio_ok envA "/home" "u" "/audio" fs0
    { title := "talk", ext := "webm" } rfl ⟨"home", by decide⟩

/-! ## C6: one transcript string for file, counter and summarizer -/

/-- C6: in a successful run there is a single transcript string `t` —
the transcriber's output — such that the transcript file holds exactly
`t`, the token counter is applied to `t`, the summarizer is applied to
`t`, and any string read back from the file agrees with `t` byte for
byte in UTF-8. -/
theorem c6_one_transcript_string (env : Env) (cwd : String) (args : Args) (fs : FS)
    (info : InfoDict) (h : env.extract_info args.video_url = Except.ok info) :
    ∃ t,
      t = transcribe_audio_faster env (mp3_path cwd (prepare_filename args.mp3_dir info))
      ∧ (pipeline_main env cwd args fs).1.files.lookup
          (transcript_output_path args.transcript_dir (prepare_filename args.mp3_dir info)) = some t
      ∧ Event.writeTranscript
          (transcript_output_path args.transcript_dir (prepare_filename args.mp3_dir info)) t
          ∈ (pipeline_main env cwd args fs).2.1
      ∧ Event.countTokens t ∈ (pipeline_main env cwd args fs).2.1
      ∧ Event.summarize t ∈ (pipeline_main env cwd args fs).2.1
      ∧ (∀ s, (pipeline_main env cwd args fs).1.files.lookup
            (transcript_output_path args.transcript_dir (prepare_filename args.mp3_dir info)) = some s →
            s.toUTF8.data = t.toUTF8.data) := by
  refine ⟨transcribe_audio_faster env (mp3_path cwd (prepare_filename args.mp3_dir info)),
    rfl, ?_, ?_, ?_, ?_, ?_⟩
  · simp [pipeline_main, download_audio, h, write_file, lookup_set_file]
  · simp [pipeline_main, download_audio, h]
  · simp [pipeline_main, download_audio, h]
  · simp [pipeline_main, download_audio, h]
  · intro s hs
    have hlook : (pipeline_main env cwd args fs).1.files.lookup
        (transcript_output_path args.transcript_dir (prepare_filename args.mp3_dir info)) =
        some (transcribe_audio_faster env (mp3_path cwd (prepare_filename args.mp3_dir info))) := by
      simp [pipeline_main, download_audio, h, write_file, lookup_set_file]
    rw [hlook] at hs
    rw [Option.some.injEq] at hs
    rw [hs]

/-- Witness for C6 at a concrete run. -/
theorem c6_one_transcript_string_witness :
    ∃ t,
      t = transcribe_audio_faster envA (mp3_path "/home" (prepare_filename "." { title := "talk", ext := "webm" }))
      ∧ (pipeline_main envA "/home" { video_url := "u" } fs0).1.files.lookup
          (transcript_output_path "." (prepare_filename "." { title := "talk", ext := "webm" })) = some t
      ∧ Event.writeTranscript
          (transcript_output_path "." (prepare_filename "." { title := "talk", ext := "webm" })) t
          ∈ (pipeline_main envA "/home" { video_url := "u" } fs0).2.1
      ∧ Event.countTokens t ∈ (pipeline_main envA "/home" { video_url := "u" } fs0).2.1
      ∧ Event.summarize t ∈ (pipeline_main envA "/home" { video_url := "u" } fs0).2.1
      ∧ (∀ s, (pipeline_main envA "/home" { video_url := "u" } fs0).1.files.lookup
            (transcript_output_path "." (prepare_filename "." { title := "talk", ext := "webm" })) = some s →
            s.toUTF8.data = t.toUTF8.data) :=
  c6_one_transcript_string envA "/home" { video_url := "u" } fs0
    { title := "talk", ext := "webm" } rfl

/-! ## C9: strict forward-only stage order -/

/-- C9: the pipeline's stages run in a strict forward-only total order.
On fetch failure the run stops after the fetch stage with exit code 1; on
fetch success the event trace is exactly fetch, transcribe, write, count,
summarize — each stage consuming the completed output of the previous one
(the transcribe stage the fetcher's mp3 path, the write/count/summarize
stages the transcriber's string) — with no stage repeated. -/
theorem c9_stage_order (env : Env) (cwd : String) (args : Args) (fs : FS) :
    (∀ e, env.extract_info args.video_url = Except.error e →
      (pipeline_main env cwd args fs).2.1 = [Event.fetch args.video_url]
      ∧ (pipeline_main env cwd args fs).2.2 = Outcome.exited 1 (fetch_error_message e))
    ∧ (∀ info, env.extract_info args.video_url = Except.ok info →
      (pipeline_main env cwd args fs).2.1 =
        [Event.fetch args.video_url,
         Event.transcribe (mp3_path cwd (prepare_filename args.mp3_dir info)),
         Event.writeTranscript
           (transcript_output_path args.transcript_dir (prepare_filename args.mp3_dir info))
           (transcribe_audio_faster env (mp3_path cwd (prepare_filename args.mp3_dir info))),
         Event.countTokens
           (transcribe_audio_faster env (mp3_path cwd (prepare_filename args.mp3_dir info))),
         Event.summarize
           (transcribe_audio_faster env (mp3_path cwd (prepare_filename args.mp3_dir info)))]) := by
  constructor
  · intro e he
    constructor
    · simp [pipeline_main, download_audio, he]
    · simp [pipeline_main, download_audio, he]
  · intro info hi
    simp [pipeline_main, download_audio, hi]

/-- Witness for C9: the aborted trace on a failing fetch and the full
five-stage trace on a successful one. -/
theorem c9_stage_order_witness :
    (pipeline_main envFail "/home" { video_url := "u" } fs0).2.1 = [Event.fetch "u"]
    ∧ (pipeline_main envA "/home" { video_url := "u" } fs0).2.1 =
        [Event.fetch "u",
         Event.transcribe (mp3_path "/home" (prepare_filename "." { title := "talk", ext := "webm" })),
         Event.writeTranscript
           (transcript_output_path "." (prepare_filename "." { title := "talk", ext := "webm" }))
           (transcribe_audio_faster envA (mp3_path "/home" (prepare_filename "." { title := "talk", ext := "webm" }))),
         Event.countTokens
           (transcribe_audio_faster envA (mp3_path "/home" (prepare_filename "." { title := "talk", ext := "webm" }))),
         Event.summarize
           (transcribe_audio_faster envA (mp3_path "/home" (prepare_filename "." { title := "talk", ext := "webm" })))] :=
  ⟨((c9_stage_order envFail "/home" { video_url := "u" } fs0).1
      (FetchErr.downloadError "unreachable") rfl).1,
   (c9_stage_order envA "/home" { video_url := "u" } fs0).2
      { title := "talk", ext := "webm" } rfl⟩

/-! ## C10: the transcript write overwrites, the audio download does not -/

/-- C10: writing the transcript opens the file in write mode and silently
replaces any existing contents at the computed path — in the model,
`write_file` maps the path to the new content whatever was there, and in
a successful run the file at the transcript path afterwards holds the new
transcription even when it held something else before — whereas the
audio download is configured with `nooverwrites: True`. -/
theorem c10_transcript_overwrites (fs : FS) (path old new : String)
    (_hold : fs.files.lookup path = some old) :
    (∀ d, (ydl_opts d).nooverwrites = true)
    ∧ (write_file fs path new).files.lookup path = some new
    ∧ (∀ (env : Env) (cwd : String) (args : Args) (info : InfoDict),
        env.extract_info args.video_url = Except.ok info →
        fs.files.lookup
          (transcript_output_path args.transcript_dir (prepare_filename args.mp3_dir info)) = some old →
        (pipeline_main env cwd args fs).1.files.lookup
          (transcript_output_path args.transcript_dir (prepare_filename args.mp3_dir info)) =
          some (transcribe_audio_faster env (mp3_path cwd (prepare_filename args.mp3_dir info)))) := by
  refine ⟨fun d => rfl, ?_, ?_⟩
  · exact lookup_set_file fs.files path new
  · intro env cwd args info hok holdt
    simp [pipeline_main, download_audio, hok, write_file, lookup_set_file]

/-- Witness for C10: a pre-existing transcript file is replaced by the
new transcription. -/
theorem c10_transcript_overwrites_witness :
    (∀ d, (ydl_opts d).nooverwrites = true)
    ∧ (write_file fsOld "/audio/talk_transcript.txt" "NEW").files.lookup
        "/audio/talk_transcript.txt" = some "NEW"
    ∧ (pipeline_main envA "/home"
        { video_url := "u", mp3_dir := "/audio", transcript_dir := "/texts" }
        fsOld).1.files.lookup
        (transcript_output_path "/texts" (prepare_filename "/audio" { title := "talk", ext := "webm" })) =
        some (transcribe_audio_faster envA
          (mp3_path "/home" (prepare_filename "/audio" { title := "talk", ext := "webm" }))) := by
  have h := c10_transcript_overwrites fsOld "/audio/talk_transcript.txt" "OLD" "NEW" rfl
  exact ⟨h.1, h.2.1, h.2.2 envA "/home"
    { video_url := "u", mp3_dir := "/audio", transcript_dir := "/texts" }
    { title := "talk", ext := "webm" } rfl (by decide)⟩
